import Mathlib

/-!
Verification of the log-analysis core of the SpinKube IoT log pipeline.

The analyzed component is the function analyzeLog in app/main.go, a pure
decision procedure mapping a decoded log record to a status and a list of
alert strings.  The Go struct fields and the constants are embedded with
their source names.  Go int is embedded as Int (the function only compares
and prints the value, so no overflow arises), and Go float64 temperature is
embedded as Rat; every numeric boundary the specification mentions (0, 80.0,
80.1, 85.0, 2000, 2001, 2500) is exactly representable in float64 and the
float64 comparison and one-decimal rendering agree with the rational ones at
those values.
-/

/-- LogEntry mirrors the Go struct LogEntry of app/main.go: the decoded
input record of the analyzer. -/
structure LogEntry where
  Level : String
  ResponseTime : Int
  DeviceID : String
  Temperature : Rat
  Message : String
deriving DecidableEq

/-- AnalysisResult mirrors the Go struct AnalysisResult of app/main.go:
the output of the analyzer. -/
structure AnalysisResult where
  Status : String
  Alerts : List String
  DeviceID : String
deriving DecidableEq

/-- Response-time threshold constant of app/main.go (milliseconds). -/
def ResponseTimeThreshold : Int := 2000

/-- Temperature threshold constant of app/main.go (degrees Celsius). -/
def TemperatureThreshold : Rat := 80

/-- Rendering of a rational with one decimal digit, embedding the Go verb
used on temperatures in app/main.go.  The value times ten is rounded to the
nearest integer, computed as the floor of q * 10 + 1 / 2 on the numerator
and denominator; an exact half rounds up here, while Go rounds the nearest
binary value to even, but no such tie arises at any value the specification
or the program exercises. -/
def fmtF1 (q : Rat) : String :=
  let n : Int := Int.fdiv (20 * q.num + (q.den : Int)) (2 * (q.den : Int))
  let sign := if n < 0 then "-" else ""
  let m := n.natAbs
  sign ++ toString (m / 10) ++ "." ++ toString (m % 10)

/-- Alert text of rule 1 of analyzeLog (ERROR level detected). -/
def errorAlert (message : String) : String :=
  "Error detected: " ++ message

/-- Alert text of rule 2 of analyzeLog (response time over threshold). -/
def responseTimeAlert (rt : Int) : String :=
  "High response time: " ++ toString rt ++ "ms (threshold: " ++
    toString ResponseTimeThreshold ++ "ms)"

/-- Alert text of rule 3 of analyzeLog (temperature over threshold). -/
def temperatureAlert (t : Rat) : String :=
  "High temperature: " ++ fmtF1 t ++ "°C (threshold: " ++
    fmtF1 TemperatureThreshold ++ "°C)"

/-- analyzeLog embeds the Go function analyzeLog of app/main.go: the result
starts as OK with no alerts and the device id copied from the input, each of
the three rules appends its alert when its condition holds, and the status
becomes ALERT when at least one alert was appended. -/
def analyzeLog (log : LogEntry) : AnalysisResult :=
  let alerts0 : List String := []
  let alerts1 :=
    if log.Level = "ERROR" then alerts0 ++ [errorAlert log.Message] else alerts0
  let alerts2 :=
    if log.ResponseTime > ResponseTimeThreshold then
      alerts1 ++ [responseTimeAlert log.ResponseTime]
    else alerts1
  let alerts3 :=
    if log.Temperature > TemperatureThreshold then
      alerts2 ++ [temperatureAlert log.Temperature]
    else alerts2
  { Status := if alerts3.length > 0 then "ALERT" else "OK"
    Alerts := alerts3
    DeviceID := log.DeviceID }

/-- The scientific literal 80.1 as an explicit reduced fraction, in a form
the kernel evaluates. -/
theorem ratLit801 : (80.1 : Rat) = Rat.mk' 801 10 := by
  rw [Rat.mk'_eq_divInt, Rat.divInt_eq_div]; norm_num

/-- The alert list of a result decomposes into the three rule contributions
in source order. -/
theorem analyzeLog_alerts (log : LogEntry) :
    (analyzeLog log).Alerts =
      (if log.Level = "ERROR" then [errorAlert log.Message] else []) ++
      (if log.ResponseTime > ResponseTimeThreshold then
        [responseTimeAlert log.ResponseTime] else []) ++
      (if log.Temperature > TemperatureThreshold then
        [temperatureAlert log.Temperature] else []) := by
  by_cases h1 : log.Level = "ERROR" <;>
    by_cases h2 : log.ResponseTime > ResponseTimeThreshold <;>
      by_cases h3 : log.Temperature > TemperatureThreshold <;>
        simp [analyzeLog, h1, h2, h3]

/-- The status of a result is OK when the alert list is empty and ALERT
otherwise. -/
theorem analyzeLog_status (log : LogEntry) :
    (analyzeLog log).Status =
      if (analyzeLog log).Alerts = [] then "OK" else "ALERT" := by
  by_cases h1 : log.Level = "ERROR" <;>
    by_cases h2 : log.ResponseTime > ResponseTimeThreshold <;>
      by_cases h3 : log.Temperature > TemperatureThreshold <;>
        simp [analyzeLog, h1, h2, h3]

/-- The device id of a result is the device id of the input. -/
theorem analyzeLog_deviceID (log : LogEntry) :
    (analyzeLog log).DeviceID = log.DeviceID := by
  by_cases h1 : log.Level = "ERROR" <;>
    by_cases h2 : log.ResponseTime > ResponseTimeThreshold <;>
      by_cases h3 : log.Temperature > TemperatureThreshold <;>
        simp [analyzeLog, h1, h2, h3]

/-- The rule 1 alert never coincides with a rule 2 alert: the texts differ
at their first character. -/
theorem errorAlert_ne_responseTimeAlert (m : String) (r : Int) :
    errorAlert m ≠ responseTimeAlert r := by
  intro h
  have h2 : (errorAlert m).data.head? = (responseTimeAlert r).data.head? := by rw [h]
  have hE : (errorAlert m).data.head? = some 'E' := rfl
  have hH : (responseTimeAlert r).data.head? = some 'H' := rfl
  rw [hE, hH] at h2
  exact absurd h2 (by decide)

/-- The rule 1 alert never coincides with a rule 3 alert: the texts differ
at their first character. -/
theorem errorAlert_ne_temperatureAlert (m : String) (t : Rat) :
    errorAlert m ≠ temperatureAlert t := by
  intro h
  have h2 : (errorAlert m).data.head? = (temperatureAlert t).data.head? := by rw [h]
  have hE : (errorAlert m).data.head? = some 'E' := rfl
  have hH : (temperatureAlert t).data.head? = some 'H' := rfl
  rw [hE, hH] at h2
  exact absurd h2 (by decide)

/-- The rule 2 alert never coincides with a rule 3 alert: the texts differ
at character index five. -/
theorem responseTimeAlert_ne_temperatureAlert (r : Int) (t : Rat) :
    responseTimeAlert r ≠ temperatureAlert t := by
  intro h
  have h2 : (responseTimeAlert r).data.get? 5 = (temperatureAlert t).data.get? 5 := by rw [h]
  have hR : (responseTimeAlert r).data.get? 5 = some 'r' := rfl
  have hT : (temperatureAlert t).data.get? 5 = some 't' := rfl
  rw [hR, hT] at h2
  exact absurd h2 (by decide)

/-- C1: for every input record the status is ALERT exactly when the alert
list is non-empty, and OK when it is empty. -/
theorem status_alert_iff_alerts_nonempty (log : LogEntry) :
    ((analyzeLog log).Status = "ALERT" ↔ (analyzeLog log).Alerts ≠ []) ∧
    ((analyzeLog log).Alerts = [] → (analyzeLog log).Status = "OK") := by
  constructor
  · rw [analyzeLog_status]
    by_cases h : (analyzeLog log).Alerts = [] <;> simp [h]
  · intro h
    rw [analyzeLog_status, if_pos h]

theorem status_alert_iff_alerts_nonempty_witness :
    (analyzeLog { Level := "ERROR", ResponseTime := 0, DeviceID := "",
                  Temperature := 0, Message := "" }).Status = "ALERT" :=
  (status_alert_iff_alerts_nonempty
    { Level := "ERROR", ResponseTime := 0, DeviceID := "",
      Temperature := 0, Message := "" }).1.mpr (by decide)

/-- C2: when the level is not ERROR, the response time is at most 2000 and
the temperature is at most 80, the result is OK with no alerts. -/
theorem ok_when_no_rule_fires (log : LogEntry)
    (h1 : log.Level ≠ "ERROR") (h2 : log.ResponseTime ≤ 2000)
    (h3 : log.Temperature ≤ 80) :
    analyzeLog log = { Status := "OK", Alerts := [], DeviceID := log.DeviceID } := by
  have h2n : ¬ log.ResponseTime > ResponseTimeThreshold := not_lt.mpr h2
  have h3n : ¬ log.Temperature > TemperatureThreshold := not_lt.mpr h3
  simp [analyzeLog, h1, h2n, h3n]

theorem ok_when_no_rule_fires_witness :
    analyzeLog { Level := "INFO", ResponseTime := 100, DeviceID := "sensor-001",
                 Temperature := 25, Message := "" } =
      { Status := "OK", Alerts := [], DeviceID := "sensor-001" } :=
  ok_when_no_rule_fires
    { Level := "INFO", ResponseTime := 100, DeviceID := "sensor-001",
      Temperature := 25, Message := "" }
    (by decide) (by decide) (by decide)

/-- C3: when the level is exactly ERROR, the first alert is the text Error
detected followed by the message, and the status is ALERT; an empty message
still yields the alert. -/
theorem error_level_first_alert (log : LogEntry) (h : log.Level = "ERROR") :
    (analyzeLog log).Alerts.head? = some ("Error detected: " ++ log.Message) ∧
    (analyzeLog log).Status = "ALERT" := by
  constructor
  · rw [analyzeLog_alerts]
    simp [h, errorAlert]
  · rw [analyzeLog_status, analyzeLog_alerts]
    simp [h]

theorem error_level_first_alert_witness :
    (analyzeLog { Level := "ERROR", ResponseTime := 0, DeviceID := "d",
                  Temperature := 0, Message := "" }).Alerts.head? =
      some ("Error detected: " ++ "") :=
  (error_level_first_alert
    { Level := "ERROR", ResponseTime := 0, DeviceID := "d",
      Temperature := 0, Message := "" } rfl).1

/-- C4: the response-time alert for a record is in the result exactly when
its response time strictly exceeds 2000; at 2000 there is no such alert, and
at 2001 the alert has the stated text and is present. -/
theorem responseTime_alert_iff (log : LogEntry) :
    (responseTimeAlert log.ResponseTime ∈ (analyzeLog log).Alerts ↔
      log.ResponseTime > ResponseTimeThreshold) ∧
    (log.ResponseTime = 2000 →
      responseTimeAlert log.ResponseTime ∉ (analyzeLog log).Alerts) ∧
    (log.ResponseTime = 2001 →
      responseTimeAlert log.ResponseTime =
        "High response time: 2001ms (threshold: 2000ms)" ∧
      responseTimeAlert log.ResponseTime ∈ (analyzeLog log).Alerts) := by
  have hER := errorAlert_ne_responseTimeAlert log.Message log.ResponseTime
  have hRT := responseTimeAlert_ne_temperatureAlert log.ResponseTime log.Temperature
  have key : responseTimeAlert log.ResponseTime ∈ (analyzeLog log).Alerts ↔
      log.ResponseTime > ResponseTimeThreshold := by
    rw [analyzeLog_alerts]
    by_cases h1 : log.Level = "ERROR" <;>
      by_cases h2 : log.ResponseTime > ResponseTimeThreshold <;>
        by_cases h3 : log.Temperature > TemperatureThreshold <;>
          simp [h1, h2, h3, List.mem_append, hER.symm, hRT]
  refine ⟨key, ?_, ?_⟩
  · intro h hmem
    have hgt := key.mp hmem
    rw [h] at hgt
    exact absurd hgt (by decide)
  · intro h
    refine ⟨?_, key.mpr ?_⟩
    · rw [h]; decide
    · rw [h]; decide

theorem responseTime_alert_iff_witness :
    responseTimeAlert 2001 ∈
      (analyzeLog { Level := "INFO", ResponseTime := 2001, DeviceID := "",
                    Temperature := 0, Message := "" }).Alerts :=
  ((responseTime_alert_iff
    { Level := "INFO", ResponseTime := 2001, DeviceID := "",
      Temperature := 0, Message := "" }).2.2 rfl).2

/-- C5: the temperature alert for a record is in the result exactly when its
temperature strictly exceeds 80; at 80 there is no such alert, and at 80.1
the alert renders with one decimal place as stated and is present. -/
theorem temperature_alert_iff (log : LogEntry) :
    (temperatureAlert log.Temperature ∈ (analyzeLog log).Alerts ↔
      log.Temperature > TemperatureThreshold) ∧
    (log.Temperature = 80 →
      temperatureAlert log.Temperature ∉ (analyzeLog log).Alerts) ∧
    (log.Temperature = 80.1 →
      temperatureAlert log.Temperature =
        "High temperature: 80.1°C (threshold: 80.0°C)" ∧
      temperatureAlert log.Temperature ∈ (analyzeLog log).Alerts) := by
  have hET := errorAlert_ne_temperatureAlert log.Message log.Temperature
  have hRT := responseTimeAlert_ne_temperatureAlert log.ResponseTime log.Temperature
  have key : temperatureAlert log.Temperature ∈ (analyzeLog log).Alerts ↔
      log.Temperature > TemperatureThreshold := by
    rw [analyzeLog_alerts]
    by_cases h1 : log.Level = "ERROR" <;>
      by_cases h2 : log.ResponseTime > ResponseTimeThreshold <;>
        by_cases h3 : log.Temperature > TemperatureThreshold <;>
          simp [h1, h2, h3, List.mem_append, hET.symm, hRT.symm]
  refine ⟨key, ?_, ?_⟩
  · intro h hmem
    have hgt := key.mp hmem
    rw [h] at hgt
    exact absurd hgt (by decide)
  · intro h
    refine ⟨?_, key.mpr ?_⟩
    · rw [h, ratLit801]; decide
    · rw [h, ratLit801]; decide

theorem temperature_alert_iff_witness :
    temperatureAlert (80.1 : Rat) ∈
      (analyzeLog { Level := "INFO", ResponseTime := 0, DeviceID := "",
                    Temperature := 80.1, Message := "" }).Alerts :=
  ((temperature_alert_iff
    { Level := "INFO", ResponseTime := 0, DeviceID := "",
      Temperature := 80.1, Message := "" }).2.2 rfl).2

/-- C6: the device id is copied unchanged to the result, and changing only
the device id changes neither the status nor the alerts. -/
theorem deviceID_passthrough (log : LogEntry) (d : String) :
    (analyzeLog log).DeviceID = log.DeviceID ∧
    (analyzeLog { log with DeviceID := d }).Status = (analyzeLog log).Status ∧
    (analyzeLog { log with DeviceID := d }).Alerts = (analyzeLog log).Alerts := by
  refine ⟨analyzeLog_deviceID log, ?_, ?_⟩ <;>
    by_cases h1 : log.Level = "ERROR" <;>
      by_cases h2 : log.ResponseTime > ResponseTimeThreshold <;>
        by_cases h3 : log.Temperature > TemperatureThreshold <;>
          simp [analyzeLog, h1, h2, h3]

/-- C7: the alert list is exactly the error-level contribution, then the
response-time contribution, then the temperature contribution, each a single
string when its rule fires and empty otherwise. -/
theorem alerts_in_rule_order (log : LogEntry) :
    (analyzeLog log).Alerts =
      (if log.Level = "ERROR" then [errorAlert log.Message] else []) ++
      (if log.ResponseTime > ResponseTimeThreshold then
        [responseTimeAlert log.ResponseTime] else []) ++
      (if log.Temperature > TemperatureThreshold then
        [temperatureAlert log.Temperature] else []) :=
  analyzeLog_alerts log

/-- C8: the analysis is total in the embedding and always yields a result
whose status is OK or ALERT; on the all-default record it yields OK with no
alerts. -/
theorem analyze_total (log : LogEntry) :
    ((analyzeLog log).Status = "OK" ∨ (analyzeLog log).Status = "ALERT") ∧
    analyzeLog { Level := "", ResponseTime := 0, DeviceID := "",
                 Temperature := 0, Message := "" } =
      { Status := "OK", Alerts := [], DeviceID := "" } := by
  constructor
  · rw [analyzeLog_status]
    by_cases h : (analyzeLog log).Alerts = [] <;> simp [h]
  · decide

/-- C9: the end-to-end example record with level ERROR, response time 2500,
device sensor-001, temperature 85 and message Connection failed yields ALERT
with exactly the three alert texts in rule order. -/
theorem end_to_end_alert_example :
    analyzeLog { Level := "ERROR", ResponseTime := 2500, DeviceID := "sensor-001",
                 Temperature := 85, Message := "Connection failed" } =
      { Status := "ALERT"
        Alerts := ["Error detected: Connection failed",
                   "High response time: 2500ms (threshold: 2000ms)",
                   "High temperature: 85.0°C (threshold: 80.0°C)"]
        DeviceID := "sensor-001" } := by decide

/-- C10: when the level is not ERROR, the message has no influence on the
result: changing only the message leaves the result identical. -/
theorem message_noninterference (log : LogEntry) (m : String)
    (h : log.Level ≠ "ERROR") :
    analyzeLog { log with Message := m } = analyzeLog log := by
  by_cases h2 : log.ResponseTime > ResponseTimeThreshold <;>
    by_cases h3 : log.Temperature > TemperatureThreshold <;>
      simp [analyzeLog, h, h2, h3]

theorem message_noninterference_witness :
    analyzeLog { Level := "INFO", ResponseTime := 0, DeviceID := "",
                 Temperature := 0, Message := "secret" } =
      analyzeLog { Level := "INFO", ResponseTime := 0, DeviceID := "",
                   Temperature := 0, Message := "" } :=
  message_noninterference
    { Level := "INFO", ResponseTime := 0, DeviceID := "",
      Temperature := 0, Message := "" } "secret" (by decide)
